import Mathlib

/-!
Verification development for the xerInsta Instagram-Telegram relay bot.

The definitions below are shallow embeddings of the JavaScript source:
* `src/core/bot.js` (first variant): `isNewMessageById`, the realtime
  `message` handler registered in `registerRealtimeHandlers`, and
  `handleMessage`;
* `src/core/bot.js` (second variant, lines 562-702): the malformed-payload
  guard of its `handleMessage`;
* `src/core/basebot.js`: the per-handler dispatch loop of `#handleMessage`;
* `src/telegram/bridge.js`: `getOrCreateTopic`, `sendToTelegram`,
  `handleTelegramMessage`, `findInstagramThreadIdByTopic`, `saveUserMapping`;
* `src/unnamed/part_001` and `src/unnamed/part_002`: `scheduleReconnect`,
  `jitter`, and the login flow of `part_001`.

Machine integers are modelled as `Nat`/`Int`/`ℚ`; JavaScript string
truthiness (`undefined`/`null`/`""` are falsy) is modelled by `truthy` on
`Option String`.  Wall-clock values (`Date`) and the opaque `raw` payload
field are not modelled: no claim below depends on them.
-/

namespace XerInsta

/-- JS truthiness of an optional string value: `undefined`, `null` and the
empty string are falsy, every other string is truthy. -/
def truthy : Option String → Bool
  | none => false
  | some s => decide (s ≠ "")

/-- JS `a || b` where `a` is an optional string and `b` a default:
falls through on `undefined`/`null`/`""`. -/
def jsOrS (a : Option String) (b : String) : String :=
  match a with
  | none => b
  | some s => if s = "" then b else s

/-- JS `String.prototype.toLowerCase` restricted to ASCII, defined on the
character list so that it evaluates inside the kernel. -/
def strLower (s : String) : String := ⟨s.data.map Char.toLower⟩

/-- Whitespace recognised by JS `String.prototype.trim` (the code points
occurring in this code base). -/
def isWhitespaceChar (c : Char) : Bool :=
  c = ' ' || c = '\t' || c = '\n' || c = '\r'

/-- JS `String.prototype.trim`: strip whitespace from both ends. -/
def strTrim (s : String) : String :=
  ⟨((s.data.dropWhile isWhitespaceChar).reverse.dropWhile
      isWhitespaceChar).reverse⟩

/-- JS `String.prototype.startsWith`. -/
def strStartsWith (s p : String) : Bool := p.data.isPrefixOf s.data

/-- JS `String.prototype.substring(0, n)`. -/
def strTake (s : String) (n : Nat) : String := ⟨s.data.take n⟩

/-! ### Message ingestion and deduplication (src/core/bot.js, first variant) -/

/-- Capacity of the dedup window (`this.maxProcessedMessageIds = 1000`). -/
def maxProcessedMessageIds : Nat := 1000

/-- The dedup window `this.processedMessageIds`: a JS `Set` keeps insertion
order, so it is modelled as a list without duplicates; the oldest id is the
head. -/
structure DedupState where
  processedMessageIds : List String
deriving DecidableEq

/-- `InstagramBot.isNewMessageById` (src/core/bot.js lines 250-259): a falsy
id is reported as new without touching the window; a known id is rejected;
otherwise the id is inserted and, over capacity, the oldest id is evicted. -/
def isNewMessageById (st : DedupState) (messageId : Option String) :
    Bool × DedupState :=
  match messageId with
  | none => (true, st)
  | some id =>
    if id = "" then (true, st)
    else if id ∈ st.processedMessageIds then (false, st)
    else
      let w := st.processedMessageIds ++ [id]
      (true, ⟨if maxProcessedMessageIds < w.length then w.tail else w⟩)

/-- A participant entry of `eventData.thread.users`. -/
structure ThreadUser where
  pk : Option String
  username : Option String
deriving DecidableEq

/-- The `eventData.thread` object. -/
structure ThreadInfo where
  thread_id : Option String
  users : Option (List ThreadUser)
deriving DecidableEq

/-- The raw `data.message` payload of a realtime event. -/
structure RawMessagePayload where
  item_id : Option String
  user_id : Option String
  text : Option String
  thread_id : Option String
  item_type : Option String
deriving DecidableEq

/-- A raw realtime event (`data` in the `message`/`direct` callbacks). -/
structure RawEvent where
  message : Option RawMessagePayload
  thread : Option ThreadInfo
deriving DecidableEq

/-- The canonical envelope built by `handleMessage` (timestamp and the
opaque `raw` pass-through are not modelled). -/
structure ProcessedMessage where
  id : Option String
  text : String
  senderId : Option String
  senderUsername : String
  threadId : String
  itemKind : String
deriving DecidableEq

/-- Sender-name resolution of `InstagramBot.handleMessage` (src/core/bot.js
lines 263-269): start from the placeholder, then use the matching thread
participant when it carries a truthy username. -/
def resolveSenderUsername (m : RawMessagePayload) (ev : RawEvent) : String :=
  let fallback := "user_" ++ m.user_id.getD "undefined"
  match ev.thread with
  | none => fallback
  | some t =>
    match t.users with
    | none => fallback
    | some users =>
      match users.find? (fun u => u.pk == m.user_id) with
      | none => fallback
      | some u => if truthy u.username then u.username.getD "" else fallback

/-- `InstagramBot.handleMessage` (src/core/bot.js lines 261-287): builds the
canonical envelope.  There is no malformed-payload guard in this variant. -/
def handleMessage (m : RawMessagePayload) (ev : RawEvent) : ProcessedMessage :=
  { id := m.item_id
    text := m.text.getD ""
    senderId := m.user_id
    senderUsername := resolveSenderUsername m ev
    threadId := jsOrS (ev.thread.bind (·.thread_id)) (jsOrS m.thread_id "unknown")
    itemKind := jsOrS m.item_type "unknown" }

/-- The realtime `message` handler registered by `registerRealtimeHandlers`
(src/core/bot.js lines 227-231): drop events without a message payload, ask
the dedup window, and dispatch the canonical envelope otherwise. -/
def onMessageEvent (st : DedupState) (ev : RawEvent) :
    Option ProcessedMessage × DedupState :=
  match ev.message with
  | none => (none, st)
  | some m =>
    let r := isNewMessageById st m.item_id
    if r.1 then (some (handleMessage m ev), r.2) else (none, r.2)

/-- Processing a sequence of raw events, collecting every dispatched
envelope in order. -/
def runEvents (st : DedupState) : List RawEvent → List ProcessedMessage × DedupState
  | [] => ([], st)
  | ev :: evs =>
    let r := onMessageEvent st ev
    let rest := runEvents r.2 evs
    (r.1.toList ++ rest.1, rest.2)

/-! ### Downstream handler dispatch -/

/-- Outcome of one registered downstream handler on one message. -/
inductive HandlerOutcome
  | ok
  | threw
deriving DecidableEq

/-- The dispatch loop of `InstagramBot.handleMessage` in src/core/bot.js
(lines 281-286): the `for` loop over `this.messageHandlers` sits inside the
single function-level `try`, so the first handler that throws is invoked,
the exception is caught and logged once, and no later handler runs.  The
result lists the zero-based indices of the handlers that were invoked. -/
def invokedBotJsFrom : Nat → List HandlerOutcome → List Nat
  | _, [] => []
  | i, HandlerOutcome.ok :: hs => i :: invokedBotJsFrom (i + 1) hs
  | i, HandlerOutcome.threw :: _ => [i]

/-- Handler indices invoked by the bot.js dispatch loop. -/
def invokedBotJs (hs : List HandlerOutcome) : List Nat := invokedBotJsFrom 0 hs

/-- The dispatch loop of `InstagramBot.#handleMessage` in src/core/basebot.js
(lines 225-231): each `await handler(processedMessage)` is wrapped in its own
`try`/`catch`, so every handler is invoked regardless of earlier throws. -/
def invokedBaseBotFrom : Nat → List HandlerOutcome → List Nat
  | _, [] => []
  | i, _ :: hs => i :: invokedBaseBotFrom (i + 1) hs

/-- Handler indices invoked by the basebot.js dispatch loop. -/
def invokedBaseBot (hs : List HandlerOutcome) : List Nat := invokedBaseBotFrom 0 hs

/-! ### Race-safe topic creation (TelegramBridge.getOrCreateTopic,
src/telegram/bridge.js lines 235-286)

The method runs on a single-threaded event loop.  Its synchronous segment —
the `chatMappings.has` check, the `creatingTopics.has` check, starting the
async IIFE (which suspends at its first `await`) and
`creatingTopics.set(threadId, promise)` — executes without interleaving, so
a caller's arrival is one atomic step (`arriveCaller`).  The settling of
the creation promise is the second atomic step (`completeCreation`): on
success `saveChatMapping` records the mapping and the `finally` clause
deletes the in-flight marker; on failure the promise resolves `null` and
the `finally` clause still deletes the marker; either way every caller that
awaited the promise resolves with the same value.  The model tracks a
single thread id; `createCalls` counts `createForumTopic` invocations. -/

/-- Per-thread state of the topic-creation protocol. -/
structure TopicRaceState where
  mapping : Option Nat
  inflight : Bool
  waiters : List Nat
  results : List (Nat × Option Nat)
  createCalls : Nat
deriving DecidableEq

/-- State before any message on the thread: no mapping, no in-flight
creation. -/
def initRaceState : TopicRaceState := ⟨none, false, [], [], 0⟩

/-- A caller (message) enters `getOrCreateTopic`: an existing mapping
resolves immediately; an in-flight creation is awaited; otherwise the
caller starts the creation, registering the in-flight marker. -/
def arriveCaller (st : TopicRaceState) (c : Nat) : TopicRaceState :=
  match st.mapping with
  | some t => { st with results := st.results ++ [(c, some t)] }
  | none =>
    if st.inflight then { st with waiters := st.waiters ++ [c] }
    else { st with inflight := true, waiters := st.waiters ++ [c],
                   createCalls := st.createCalls + 1 }

/-- The creation promise settles: `some t` is a created topic id (mapping
saved), `none` is a failed creation; the in-flight marker is deleted in the
`finally` clause either way and all awaiting callers resolve the same
value. -/
def completeCreation (st : TopicRaceState) (outcome : Option Nat) :
    TopicRaceState :=
  { st with
    mapping := match outcome with | some t => some t | none => st.mapping
    inflight := false
    waiters := []
    results := st.results ++ st.waiters.map (fun c => (c, outcome)) }

/-! ### Reconnect backoff (InstagramBot.scheduleReconnect,
src/unnamed/part_001 lines 1844-1867 and src/unnamed/part_002 lines 415-436) -/

/-- `this.realtimeRetryDelay = 30000` (part_001). -/
def part001RetryDelay : Nat := 30000

/-- The part_001 cap `15 * 60_000`. -/
def part001MaxDelay : Nat := 900000

/-- `this.maxReconnectAttempts = 10` (both variants). -/
def maxReconnectAttempts : Nat := 10

/-- The part_002 initial delay `2000`. -/
def part002RetryDelay : Nat := 2000

/-- The part_002 cap `60000`. -/
def part002MaxDelay : Nat := 60000

/-- The un-jittered backoff base
`Math.min(cap, base * Math.pow(2, attempt))`. -/
def reconnectBase (base cap attempt : Nat) : Nat := min cap (base * 2 ^ attempt)

/-- The `jitter(baseMs, fraction)` helper (part_001 lines 2063-2066):
`Math.floor(baseMs - delta + Math.random() * (2 * delta))` with
`delta = baseMs * fraction`; `r` models `Math.random()` with `0 ≤ r < 1`. -/
def jitterMs (baseMs fraction r : ℚ) : ℤ :=
  Int.floor (baseMs - baseMs * fraction + r * (2 * (baseMs * fraction)))

/-- `scheduleReconnect` (part_001): at or past the attempt cap nothing is
scheduled; otherwise the retry is scheduled after the jittered backoff of
the current counter value (returned here as the un-jittered base). -/
def scheduleReconnect (attempt : Nat) : Option Nat :=
  if maxReconnectAttempts ≤ attempt then none
  else some (reconnectBase part001RetryDelay part001MaxDelay attempt)

/-- The attempt counter after the scheduled reconnect runs: reset to 0 when
`connectRealtime` succeeds (also done by the `connect` event handler),
incremented otherwise. -/
def reconnectAttemptAfter (attempt : Nat) (success : Bool) : Nat :=
  if success then 0 else attempt + 1

/-! ### Login flow ordering (src/core/bot.js lines 94-201, first variant,
and src/unnamed/part_001 lines 1542-1571)

Each login flow is modelled as the trace of its externally visible steps,
branch by branch: the outcome of the fresh credential login (including the
warm-up failures of bot.js and the 2FA/checkpoint resolution branches of
part_001, on which the cooldown is skipped) is an explicit parameter.  A
failed restore strategy is modelled as failing at its `currentUser`
identity probe (a failure earlier in the attempt only removes steps before
the fresh login); a fresh-login resolution that itself throws mid-way
aborts the whole login, leaving a prefix of the modelled trace with no
post-login step, and is represented by the `failed` outcome. -/

/-- The malformed-payload guard of the second bot.js variant's
`handleMessage` (src/core/bot.js lines 663-702): a payload lacking a truthy
`user_id` or `item_id` is logged and dropped, nothing is dispatched;
otherwise the canonical envelope is built (the envelope construction is
shared with `handleMessage`, whose modelled fields coincide).  Both
variants return normally, so a malformed payload is never propagated as an
error. -/
def handleMessageV2 (m : RawMessagePayload) (ev : RawEvent) :
    Option ProcessedMessage :=
  if !truthy m.user_id || !truthy m.item_id then none
  else some (handleMessage m ev)

/-! ### The relay bridge (src/telegram/bridge.js)

Sequential (single-message) model of `sendToTelegram` and
`handleTelegramMessage`.  The `Date` fields (`firstSeen`, `lastSeen`,
`createdAt`) of the persisted records are not modelled; the voice/photo
sub-handlers are collapsed to one send action each, which is all the claims
about forwarding/non-forwarding observe. -/

/-- A value of `this.userMappings` (`saveUserMapping`, bridge.js lines
149-174). -/
structure UserData where
  username : Option String
  fullName : Option String
  messageCount : Nat
deriving DecidableEq

/-- In-memory bridge state: `userMappings`, `chatMappings` (JS `Map`s,
modelled as insertion-ordered association lists), the `filters` set and the
`enabled` flag. -/
structure BridgeState where
  userMappings : List (String × UserData)
  chatMappings : List (String × Nat)
  filters : List String
  enabled : Bool
deriving DecidableEq

/-- `Map.get`: the value stored under a key. -/
def lookupAssoc {β : Type} (l : List (String × β)) (k : String) : Option β :=
  (l.find? (fun p => p.1 == k)).map (·.2)

/-- `Map.set`: replace in place when the key exists, append otherwise. -/
def setAssoc {β : Type} (l : List (String × β)) (k : String) (v : β) :
    List (String × β) :=
  if (l.find? (fun p => p.1 == k)).isSome then
    l.map (fun p => if p.1 == k then (k, v) else p)
  else l ++ [(k, v)]

/-- The canonical inbound envelope as consumed by the bridge (`message` in
`sendToTelegram`); `contentKind` is the envelope's `type` field. -/
structure BridgeMessage where
  senderId : String
  senderUsername : String
  threadId : String
  text : String
  contentKind : String
deriving DecidableEq

/-- Destination-network calls issued by the inbound relay path. -/
inductive TgAction
  | createTopic (name : String)
  | sendText (topicId : Nat) (text : String)
  | sendVoice (topicId : Nat)
  | sendPhoto (topicId : Nat)
deriving DecidableEq

/-- Whether an action forwards message content (topic creation does not). -/
def isForwardAction : TgAction → Bool
  | TgAction.createTopic _ => false
  | TgAction.sendText _ _ => true
  | TgAction.sendVoice _ => true
  | TgAction.sendPhoto _ => true

/-- Topic-name derivation inside `getOrCreateTopic` (bridge.js lines
252-266): a known profile gives `@username`, an unknown truthy sender id
gives `User {id}` and also seeds a profile with `messageCount: 0`; the
fallback is the thread-id based default name. -/
def topicNameFor (st : BridgeState) (threadId senderId : String) :
    String × BridgeState :=
  match lookupAssoc st.userMappings senderId with
  | some ud => ("@" ++ jsOrS ud.username (jsOrS ud.fullName senderId), st)
  | none =>
    if senderId ≠ "" then
      ("User " ++ senderId,
       { st with userMappings := setAssoc st.userMappings senderId ⟨none, none, 0⟩ })
    else ("Instagram Chat " ++ strTake threadId 10 ++ "...", st)

/-- `TelegramBridge.getOrCreateTopic` (bridge.js lines 235-286) in the
sequential case (no concurrent caller; the concurrent protocol is
`arriveCaller`/`completeCreation` above).  `createOutcome` is the result of
the `createForumTopic` call: `some t` resolves with topic id `t`, `none` is
a rejected call (the method then returns `null`). -/
def getOrCreateTopicSeq (st : BridgeState) (threadId senderId : String)
    (createOutcome : Option Nat) : BridgeState × Option Nat × List TgAction :=
  match lookupAssoc st.chatMappings threadId with
  | some t => (st, some t, [])
  | none =>
    let n := topicNameFor st threadId senderId
    match createOutcome with
    | some t =>
      ({ n.2 with chatMappings := setAssoc n.2.chatMappings threadId t },
       some t, [TgAction.createTopic n.1])
    | none => (n.2, none, [TgAction.createTopic n.1])

/-- The user-mapping upsert at the top of `sendToTelegram` (bridge.js lines
324-336): a never-seen sender gets a profile with `messageCount: 0`; a
known sender's count is incremented. -/
def upsertSender (st : BridgeState) (msg : BridgeMessage) : BridgeState :=
  match lookupAssoc st.userMappings msg.senderId with
  | none =>
    { st with userMappings := (setAssoc st.userMappings msg.senderId
        ⟨some msg.senderUsername, none, 0⟩) }
  | some ud =>
    { st with userMappings := (setAssoc st.userMappings msg.senderId
        { ud with messageCount := ud.messageCount + 1 }) }

/-- The filter check and content dispatch of `sendToTelegram` (bridge.js
lines 345-368): a matching filter prefix suppresses everything; otherwise
text, voice and photo kinds produce one send each and unsupported kinds are
ignored. -/
def dispatchContent (st : BridgeState) (msg : BridgeMessage) (topicId : Nat) :
    List TgAction :=
  if st.filters.any (fun w => strStartsWith (strTrim (strLower msg.text)) w) then
    []
  else if msg.contentKind == "text" || msg.contentKind == "" then
    [TgAction.sendText topicId
      (if strTrim msg.text == "" then "[Empty message]" else msg.text)]
  else if msg.contentKind == "voice_media" then [TgAction.sendVoice topicId]
  else if msg.contentKind == "media" || msg.contentKind == "photo"
      || msg.contentKind == "raven_media" then [TgAction.sendPhoto topicId]
  else []

/-- `TelegramBridge.sendToTelegram` (bridge.js lines 307-373): bail out when
disabled, drop the bot's own messages, upsert the sender profile, resolve or
create the topic, then filter and dispatch. -/
def sendToTelegram (botUserId : String) (st : BridgeState) (msg : BridgeMessage)
    (createOutcome : Option Nat) : BridgeState × List TgAction :=
  if !st.enabled then (st, [])
  else if msg.senderId == botUserId then (st, [])
  else
    let r := getOrCreateTopicSeq (upsertSender st msg) msg.threadId
      msg.senderId createOutcome
    match r.2.1 with
    | none => (r.1, r.2.2)
    | some topicId => (r.1, r.2.2 ++ dispatchContent r.1 msg topicId)

/-- Acknowledgment signals of the outbound path (`setReaction` emojis). -/
inductive TgAck
  | unknownThread
  | filtered
  | success
  | failure
deriving DecidableEq

/-- Source-network calls issued by the outbound path. -/
inductive IgAction
  | sendText (threadId : String) (text : String)
deriving DecidableEq

/-- Result of the `instagramBot.sendMessage` call as observed by the
bridge: a returned value with its JS truthiness, or a thrown error. -/
inductive SendOutcome
  | returned (truthyResult : Bool)
  | threw
deriving DecidableEq

/-- A topic-tagged Telegram group message as consumed by
`handleTelegramMessage`. -/
structure TelegramMsg where
  fromId : Nat
  text : Option String
  messageThreadId : Nat
deriving DecidableEq

/-- `TelegramBridge.findInstagramThreadIdByTopic` (bridge.js lines
725-732): reverse lookup over the chat mappings. -/
def findInstagramThreadIdByTopic (chats : List (String × Nat)) (topicId : Nat) :
    Option String :=
  (chats.find? (fun p => p.2 == topicId)).map (·.1)

/-- `TelegramBridge.handleTelegramMessage` (bridge.js lines 663-709):
messages from the bot itself are dropped with no signal; an unresolvable
topic gets the unknown reaction; a filter-prefix match gets the blocked
reaction; a text message is sent to the source network and acknowledged
with success on a truthy send result and with failure when the result is
falsy or the send throws (both reach the catch block); non-text messages
get the failure reaction.  `setReaction` swallows its own errors, so each
branch emits exactly the listed signals. -/
def handleTelegramMessage (botId : Nat) (st : BridgeState) (msg : TelegramMsg)
    (send : SendOutcome) : List TgAck × List IgAction :=
  if msg.fromId == botId then ([], [])
  else
    match findInstagramThreadIdByTopic st.chatMappings msg.messageThreadId with
    | none => ([TgAck.unknownThread], [])
    | some threadId =>
      let originalText := strTrim (msg.text.getD "")
      if st.filters.any (fun w => strStartsWith (strLower originalText) w) then
        ([TgAck.filtered], [])
      else if truthy msg.text then
        match send with
        | SendOutcome.returned true =>
          ([TgAck.success], [IgAction.sendText threadId originalText])
        | SendOutcome.returned false =>
          ([TgAck.failure], [IgAction.sendText threadId originalText])
        | SendOutcome.threw =>
          ([TgAck.failure], [IgAction.sendText threadId originalText])
      else ([TgAck.failure], [])

/-! ### Theorems for C1 (dedup dispatches exactly once) -/

theorem mem_window_after_insert (w : List String) (id : String) :
    id ∈ (if maxProcessedMessageIds < (w ++ [id]).length
          then (w ++ [id]).tail else (w ++ [id])) := by
  split
  · rename_i h
    match w with
    | [] => simp [maxProcessedMessageIds] at h
    | a :: w' => simp
  · simp

theorem isNewMessageById_mem (w : List String) (id : String)
    (hid : id ≠ "") (h : id ∈ w) :
    isNewMessageById ⟨w⟩ (some id) = (false, ⟨w⟩) := by
  simp [isNewMessageById, hid, h]

theorem isNewMessageById_fresh (w : List String) (id : String)
    (hid : id ≠ "") (h : id ∉ w) :
    isNewMessageById ⟨w⟩ (some id) =
      (true, ⟨if maxProcessedMessageIds < (w ++ [id]).length
              then (w ++ [id]).tail else (w ++ [id])⟩) := by
  simp [isNewMessageById, hid, h]

theorem runEvents_nil_of_mem (id : String) (hid : id ≠ "")
    (evs : List RawEvent) :
    ∀ st : DedupState, id ∈ st.processedMessageIds →
      (∀ e ∈ evs, ∃ m, e.message = some m ∧ m.item_id = some id) →
      (runEvents st evs).1 = [] := by
  induction evs with
  | nil => intro st _ _; rfl
  | cons e rest ih =>
    intro st hmem hall
    obtain ⟨m, hm, hmid⟩ := hall e (List.mem_cons_self _ _)
    have hstep : onMessageEvent st e = (none, st) := by
      obtain ⟨w⟩ := st
      simp [onMessageEvent, hm, hmid, isNewMessageById_mem w id hid hmem]
    simp only [runEvents, hstep, Option.toList_none, List.nil_append]
    exact ih st hmem (fun e' he' => hall e' (List.mem_cons_of_mem _ he'))

/-- C1: for every sequence of raw inbound events that share one (truthy)
message id not yet in the dedup window, the realtime pipeline of
src/core/bot.js dispatches exactly one canonical envelope — the one built
from the first event — and drops every later duplicate. -/
theorem duplicate_events_dispatch_once
    (w : List String) (id : String) (ev : RawEvent) (rest : List RawEvent)
    (hid : id ≠ "") (hw : id ∉ w)
    (hall : ∀ e ∈ ev :: rest, ∃ m, e.message = some m ∧ m.item_id = some id) :
    ∃ m, ev.message = some m ∧
      (runEvents ⟨w⟩ (ev :: rest)).1 = [handleMessage m ev] := by
  obtain ⟨m, hm, hmid⟩ := hall ev (List.mem_cons_self _ _)
  refine ⟨m, hm, ?_⟩
  have hstep : onMessageEvent ⟨w⟩ ev =
      (some (handleMessage m ev),
       ⟨if maxProcessedMessageIds < (w ++ [id]).length
        then (w ++ [id]).tail else (w ++ [id])⟩) := by
    simp [onMessageEvent, hm, hmid, isNewMessageById_fresh w id hid hw]
  simp only [runEvents, hstep, Option.toList_some, List.singleton_append,
    List.cons.injEq, true_and]
  refine runEvents_nil_of_mem id hid rest _ ?_
    (fun e' he' => hall e' (List.mem_cons_of_mem _ he'))
  exact mem_window_after_insert w id

/-- Sample raw event used by the C1 witness. -/
def dedupExampleEvent : RawEvent :=
  { message := some { item_id := some "m1", user_id := some "42",
                      text := some "hi", thread_id := some "T1",
                      item_type := some "text" }
    thread := none }

/-- Witness for C1: three transport deliveries of the same message id
dispatch exactly the one envelope built from the first event. -/
theorem duplicate_events_dispatch_once_witness :
    ∃ m, dedupExampleEvent.message = some m ∧
      (runEvents ⟨[]⟩ [dedupExampleEvent, dedupExampleEvent, dedupExampleEvent]).1
        = [handleMessage m dedupExampleEvent] := by
  refine duplicate_events_dispatch_once [] "m1" dedupExampleEvent
    [dedupExampleEvent, dedupExampleEvent] (by decide) (by simp) ?_
  intro e he
  simp only [List.mem_cons, List.not_mem_nil, or_false] at he
  rcases he with rfl | rfl | rfl <;> exact ⟨_, rfl, rfl⟩

/-! ### Theorems for C8 (handler dispatch order and isolation) -/

/-- C8 counterexample: in the bot.js dispatch loop (src/core/bot.js lines
281-286) a first handler that throws prevents the second registered handler
from being invoked, contradicting the claimed per-handler isolation. -/
theorem handler_isolation_counterexample :
    invokedBotJs [HandlerOutcome.threw, HandlerOutcome.ok] = [0] ∧
    (1 : Nat) ∉ invokedBotJs [HandlerOutcome.threw, HandlerOutcome.ok] := by
  decide

theorem invokedBaseBotFrom_eq (hs : List HandlerOutcome) :
    ∀ i, invokedBaseBotFrom i hs = List.range' i hs.length := by
  induction hs with
  | nil => intro i; rfl
  | cons h t ih =>
    intro i
    simp only [invokedBaseBotFrom, List.length_cons, List.range'_succ, ih]

theorem invokedBotJsFrom_eq (hs : List HandlerOutcome) :
    ∀ i, invokedBotJsFrom i hs =
      List.range' i
        (min hs.length ((hs.takeWhile (· == HandlerOutcome.ok)).length + 1)) := by
  induction hs with
  | nil => intro i; rfl
  | cons h t ih =>
    intro i
    cases h with
    | ok =>
      simp only [invokedBotJsFrom, List.takeWhile_cons, List.length_cons]
      norm_num
      rw [Nat.succ_min_succ, List.range'_succ, ih]
    | threw =>
      have h1 : ((HandlerOutcome.threw :: t).takeWhile
          (· == HandlerOutcome.ok)).length = 0 := by
        simp [List.takeWhile_cons]
      simp only [invokedBotJsFrom, List.length_cons, h1]
      have h2 : min (t.length + 1) (0 + 1) = 1 := by omega
      rw [h2]
      rfl

/-- C8 amended: handlers are invoked in registration order in both dispatch
loops; the basebot.js loop invokes every registered handler regardless of
throws (per-handler isolation), while the bot.js loop invokes exactly the
handlers up to and including the first one that throws, skipping the rest;
in both loops no handler exception escapes the dispatch. -/
theorem handlers_order_and_isolation (hs : List HandlerOutcome) :
    invokedBaseBot hs = List.range hs.length ∧
    invokedBotJs hs =
      List.range
        (min hs.length ((hs.takeWhile (· == HandlerOutcome.ok)).length + 1)) := by
  constructor
  · rw [invokedBaseBot, invokedBaseBotFrom_eq, List.range_eq_range']
  · rw [invokedBotJs, invokedBotJsFrom_eq, List.range_eq_range']

/-! ### Theorems for C2 (race-safe topic creation) -/

theorem foldl_arrive_pending (cs : List Nat) :
    ∀ (w : List Nat) (r : List (Nat × Option Nat)) (k : Nat),
      cs.foldl arriveCaller ⟨none, true, w, r, k⟩ = ⟨none, true, w ++ cs, r, k⟩ := by
  induction cs with
  | nil => intro w r k; simp
  | cons c cs ih =>
    intro w r k
    have hstep : arriveCaller ⟨none, true, w, r, k⟩ c =
        ⟨none, true, w ++ [c], r, k⟩ := by
      simp [arriveCaller]
    rw [List.foldl_cons, hstep, ih]
    simp

/-- C2: a burst of at least two concurrent first-time callers on the same
new thread id issues exactly one `createForumTopic` call, every caller
resolves the same outcome (the created topic id, or `null` on failure), and
the in-flight marker is removed whether the creation succeeds or fails. -/
theorem topic_creation_race_safe (callers : List Nat) (outcome : Option Nat)
    (h2 : 2 ≤ callers.length) :
    (completeCreation (callers.foldl arriveCaller initRaceState)
        outcome).createCalls = 1 ∧
    (completeCreation (callers.foldl arriveCaller initRaceState)
        outcome).inflight = false ∧
    (completeCreation (callers.foldl arriveCaller initRaceState)
        outcome).mapping = outcome ∧
    (completeCreation (callers.foldl arriveCaller initRaceState)
        outcome).results = callers.map (fun x => (x, outcome)) := by
  match callers with
  | [] => simp at h2
  | c :: rest =>
    have h1 : arriveCaller initRaceState c = ⟨none, true, [c], [], 1⟩ := by
      simp [arriveCaller, initRaceState]
    have hfold : (c :: rest).foldl arriveCaller initRaceState =
        ⟨none, true, c :: rest, [], 1⟩ := by
      rw [List.foldl_cons, h1, foldl_arrive_pending]
      simp
    rw [hfold]
    cases outcome <;> simp [completeCreation]

/-! ### Association-list lemmas for the bridge maps -/

theorem lookupAssoc_replace {β : Type} (l : List (String × β)) (k : String) (v : β)
    (h : (l.find? (fun p => p.1 == k)).isSome = true) :
    lookupAssoc (l.map (fun p => if p.1 == k then (k, v) else p)) k = some v := by
  induction l with
  | nil => simp at h
  | cons p l ih =>
    cases hb : (p.1 == k) with
    | true =>
      simp only [List.map_cons, hb, if_true]
      rw [lookupAssoc, List.find?_cons_of_pos _ (by simp)]
      rfl
    | false =>
      have h' : (l.find? (fun p => p.1 == k)).isSome = true := by
        rwa [List.find?_cons_of_neg _ (by simp [hb])] at h
      simp only [List.map_cons, hb, Bool.false_eq_true, if_false]
      rw [lookupAssoc, List.find?_cons_of_neg _ (by simp [hb])]
      exact ih h'

theorem lookupAssoc_append_self {β : Type} (l : List (String × β)) (k : String)
    (v : β) (h : (l.find? (fun p => p.1 == k)).isSome = false) :
    lookupAssoc (l ++ [(k, v)]) k = some v := by
  have hnone : l.find? (fun p => p.1 == k) = none := by
    cases hf : l.find? (fun p => p.1 == k) with
    | none => rfl
    | some x => rw [hf] at h; simp at h
  rw [lookupAssoc, List.find?_append, hnone]
  simp

theorem lookupAssoc_setAssoc_self {β : Type} (l : List (String × β)) (k : String)
    (v : β) : lookupAssoc (setAssoc l k v) k = some v := by
  rw [setAssoc]
  split
  · exact lookupAssoc_replace l k v (by assumption)
  · rename_i hcond
    simp only [Bool.not_eq_true] at hcond
    exact lookupAssoc_append_self l k v hcond

theorem upsertSender_filters (st : BridgeState) (msg : BridgeMessage) :
    (upsertSender st msg).filters = st.filters := by
  rw [upsertSender]
  split <;> rfl

theorem topicNameFor_filters (st : BridgeState) (t s : String) :
    (topicNameFor st t s).2.filters = st.filters := by
  rw [topicNameFor]
  split
  · rfl
  · split <;> rfl

theorem getOrCreateTopicSeq_filters (st : BridgeState) (t s : String)
    (co : Option Nat) :
    (getOrCreateTopicSeq st t s co).1.filters = st.filters := by
  simp only [getOrCreateTopicSeq]
  split
  · rfl
  · cases co <;> simp [topicNameFor_filters]

theorem getOrCreateTopicSeq_no_forward (st : BridgeState) (t s : String)
    (co : Option Nat) :
    ∀ a ∈ (getOrCreateTopicSeq st t s co).2.2, isForwardAction a = false := by
  simp only [getOrCreateTopicSeq]
  split
  · simp
  · cases co <;> simp [isForwardAction]

theorem getOrCreateTopicSeq_userLookup (st : BridgeState) (t s : String)
    (co : Option Nat) (u : UserData)
    (h : lookupAssoc st.userMappings s = some u) :
    lookupAssoc (getOrCreateTopicSeq st t s co).1.userMappings s = some u := by
  simp only [getOrCreateTopicSeq, topicNameFor, h]
  split
  · exact h
  · cases co <;> simp [h]

/-! ### Theorems for C4 (own messages never relayed) -/

/-- C4: an inbound message whose sender id equals the bot's own identity is
dropped by `sendToTelegram` before any destination call: no topic creation,
no text, voice or media send, and no state change. -/
theorem self_messages_never_relayed (botUserId : String) (st : BridgeState)
    (msg : BridgeMessage) (co : Option Nat) (h : msg.senderId = botUserId) :
    sendToTelegram botUserId st msg co = (st, []) := by
  have hb : (msg.senderId == botUserId) = true := by simp [h]
  simp [sendToTelegram, hb]

/-- Bridge state used by concrete runs below: one active filter word. -/
def exBridgeState : BridgeState := ⟨[], [], ["spam"], true⟩

/-- Witness for C4: a message whose sender id equals the bot's id produces
no actions. -/
theorem self_messages_never_relayed_witness :
    sendToTelegram "999" exBridgeState ⟨"999", "bot", "T1", "x", "text"⟩ (some 7)
      = (exBridgeState, []) :=
  self_messages_never_relayed "999" exBridgeState
    ⟨"999", "bot", "T1", "x", "text"⟩ (some 7) rfl

/-! ### Theorems for C5 (filtered messages never relayed) -/

/-- C5: a message whose lowercased trimmed body starts with an active
filter entry is never forwarded, in either relay direction: the inbound
path issues no content send (at most the topic creation that precedes the
filter check in the source), and the outbound path issues no source-network
send. -/
theorem filtered_messages_never_relayed (botUserId : String) (botId : Nat)
    (st : BridgeState) (msg : BridgeMessage) (co : Option Nat)
    (tmsg : TelegramMsg) (send : SendOutcome) (w : String)
    (hw : w ∈ st.filters)
    (hin : strStartsWith (strTrim (strLower msg.text)) w = true)
    (hout : strStartsWith (strLower (strTrim (tmsg.text.getD ""))) w = true) :
    (∀ a ∈ (sendToTelegram botUserId st msg co).2, isForwardAction a = false) ∧
    (handleTelegramMessage botId st tmsg send).2 = [] := by
  constructor
  · intro a ha
    simp only [sendToTelegram] at ha
    split at ha
    · simp at ha
    · split at ha
      · simp at ha
      · split at ha
        · exact getOrCreateTopicSeq_no_forward _ _ _ _ a ha
        · rename_i x topicId heq
          have hfil : (getOrCreateTopicSeq (upsertSender st msg) msg.threadId
              msg.senderId co).1.filters = st.filters := by
            rw [getOrCreateTopicSeq_filters, upsertSender_filters]
          have hany : ((getOrCreateTopicSeq (upsertSender st msg) msg.threadId
              msg.senderId co).1.filters.any
                (fun v => strStartsWith (strTrim (strLower msg.text)) v)) = true := by
            rw [hfil]
            exact List.any_eq_true.mpr ⟨w, hw, hin⟩
          have hd : dispatchContent (getOrCreateTopicSeq (upsertSender st msg)
              msg.threadId msg.senderId co).1 msg topicId = [] := by
            rw [dispatchContent, if_pos hany]
          rw [hd, List.append_nil] at ha
          exact getOrCreateTopicSeq_no_forward _ _ _ _ a ha
  · simp only [handleTelegramMessage]
    split
    · rfl
    · split
      · rfl
      · rw [if_pos (List.any_eq_true.mpr ⟨w, hw, hout⟩)]

/-- Witness for C5: filter word `spam`, an inbound `Spam offer` and an
outbound `spam x` are both suppressed. -/
theorem filtered_messages_never_relayed_witness :
    (∀ a ∈ (sendToTelegram "999" exBridgeState
        ⟨"7", "alice", "T1", "Spam offer", "text"⟩ (some 5)).2,
      isForwardAction a = false) ∧
    (handleTelegramMessage 1 exBridgeState ⟨2, some "spam x", 5⟩
        (SendOutcome.returned true)).2 = [] :=
  filtered_messages_never_relayed "999" 1 exBridgeState
    ⟨"7", "alice", "T1", "Spam offer", "text"⟩ (some 5)
    ⟨2, some "spam x", 5⟩ (SendOutcome.returned true) "spam"
    (by decide) (by decide) (by decide)

/-! ### Theorems for C3 (exactly one acknowledgment signal) -/

/-- C3 counterexample: a Telegram topic message authored by the bridge bot
itself is handled by `handleTelegramMessage` (it passes the group/topic
guard of the `message` listener) yet produces zero acknowledgment signals,
not exactly one. -/
theorem self_message_zero_acks :
    (handleTelegramMessage 999 exBridgeState ⟨999, some "hi", 5⟩
        (SendOutcome.returned true)).1.length ≠ 1 := by
  decide

/-- C3 amended: every destination-side message handled by the outbound path
whose sender is not the bridge bot itself produces exactly one
acknowledgment signal (success, unknown-thread, filtered, or failure);
messages from the bot itself are dropped with no signal. -/
theorem outbound_ack_exactly_one (botId : Nat) (st : BridgeState)
    (msg : TelegramMsg) (send : SendOutcome) (h : msg.fromId ≠ botId) :
    (handleTelegramMessage botId st msg send).1.length = 1 := by
  have hb : (msg.fromId == botId) = false := by simp [h]
  simp only [handleTelegramMessage, hb, Bool.false_eq_true, if_false]
  split
  · rfl
  · split
    · rfl
    · split
      · cases send with
        | returned b => cases b <;> rfl
        | threw => rfl
      · rfl

/-- Witness for C3: a non-self text message acknowledged once. -/
theorem outbound_ack_exactly_one_witness :
    (handleTelegramMessage 999 exBridgeState ⟨2, some "hello", 5⟩
        (SendOutcome.returned true)).1.length = 1 :=
  outbound_ack_exactly_one 999 exBridgeState ⟨2, some "hello", 5⟩
    (SendOutcome.returned true) (by decide)

/-! ### Theorems for C10 (user profile message counts) -/

/-- Bridge state with no mappings and no filters, used by the C10 runs. -/
def exCleanState : BridgeState := ⟨[], [], [], true⟩

/-- First inbound message of the C10 scenario. -/
def exMsg1 : BridgeMessage := ⟨"777", "alice", "T1", "hello", "text"⟩

/-- Second inbound message of the C10 scenario. -/
def exMsg2 : BridgeMessage := ⟨"777", "alice", "T1", "world", "text"⟩

/-- State after the first message of the C10 scenario. -/
def exState1 : BridgeState :=
  (sendToTelegram "999" exCleanState exMsg1 (some 100)).1

/-- State after the second message of the C10 scenario. -/
def exState2 : BridgeState :=
  (sendToTelegram "999" exState1 exMsg2 (some 100)).1

/-- C10 counterexample: the first message from a never-seen user creates a
profile with message count 0 (not 1, as claimed), and the second message
increments it to 1 (not 2): `saveUserMapping` is called with
`messageCount: 0` on first contact. -/
theorem user_profile_count_counterexample :
    (lookupAssoc exState1.userMappings "777").map (·.messageCount) = some 0 ∧
    (lookupAssoc exState1.userMappings "777").map (·.messageCount) ≠ some 1 ∧
    (lookupAssoc exState2.userMappings "777").map (·.messageCount) = some 1 ∧
    (lookupAssoc exState2.userMappings "777").map (·.messageCount) ≠ some 2 := by
  decide

/-- C10 amended: for an enabled bridge and a non-self sender, the first
inbound message from a never-seen user creates a profile whose message
count is 0, and every further message from that user increments the stored
count by 1 (so the second message stores count 1). -/
theorem user_profile_counts (botUserId : String) (st : BridgeState)
    (msg : BridgeMessage) (co : Option Nat)
    (hEnabled : st.enabled = true) (hNotSelf : msg.senderId ≠ botUserId) :
    lookupAssoc (sendToTelegram botUserId st msg co).1.userMappings msg.senderId =
      some (match lookupAssoc st.userMappings msg.senderId with
            | none => ⟨some msg.senderUsername, none, 0⟩
            | some ud => { ud with messageCount := ud.messageCount + 1 }) := by
  have hb : (msg.senderId == botUserId) = false := by simp [hNotSelf]
  have hfst : (sendToTelegram botUserId st msg co).1 =
      (getOrCreateTopicSeq (upsertSender st msg) msg.threadId
        msg.senderId co).1 := by
    simp only [sendToTelegram, hEnabled, hb, Bool.not_true, Bool.false_eq_true,
      if_false]
    split <;> rfl
  have hups : lookupAssoc (upsertSender st msg).userMappings msg.senderId =
      some (match lookupAssoc st.userMappings msg.senderId with
            | none => ⟨some msg.senderUsername, none, 0⟩
            | some ud => { ud with messageCount := ud.messageCount + 1 }) := by
    rw [upsertSender]
    cases hl : lookupAssoc st.userMappings msg.senderId <;>
      simp [lookupAssoc_setAssoc_self]
  rw [hfst]
  exact getOrCreateTopicSeq_userLookup _ _ _ _ _ hups

/-- Witness for C10 amended: the concrete first-contact profile stores
count 0. -/
theorem user_profile_counts_witness :
    lookupAssoc (sendToTelegram "999" exCleanState exMsg1
        (some 100)).1.userMappings "777" =
      some ⟨some "alice", none, 0⟩ := by
  have h := user_profile_counts "999" exCleanState exMsg1 (some 100) rfl
    (by decide)
  simpa using h

/-- Witness for C2: two concurrent callers, creation succeeds with topic
id 42. -/
theorem topic_creation_race_safe_witness :
    (completeCreation ([3, 4].foldl arriveCaller initRaceState)
        (some 42)).createCalls = 1 ∧
    (completeCreation ([3, 4].foldl arriveCaller initRaceState)
        (some 42)).inflight = false ∧
    (completeCreation ([3, 4].foldl arriveCaller initRaceState)
        (some 42)).mapping = some 42 ∧
    (completeCreation ([3, 4].foldl arriveCaller initRaceState)
        (some 42)).results = [3, 4].map (fun x => (x, some 42)) :=
  topic_creation_race_safe [3, 4] (some 42) (by decide)

/-! ### Theorems for C6 (reconnect backoff) -/

/-- C6: the scheduled reconnect delay base is
`min(maxDelay, base * 2 ^ attempt)` (for attempts under the cap), the base
is monotonically non-decreasing in the attempt counter and bounded by the
maximum delay (in both scheduleReconnect variants), the jitter keeps the
realized delay within ±20 percent of the base (up to the floor), and a
successful reconnect resets the attempt counter to 0, whose backoff base is
again the initial delay. -/
theorem reconnect_backoff_spec (a b : Nat) (hab : a ≤ b)
    (ha : a < maxReconnectAttempts) (r q : ℚ) (h0 : 0 ≤ r) (h1 : r < 1)
    (hq : 0 < q) :
    scheduleReconnect a =
      some (min part001MaxDelay (part001RetryDelay * 2 ^ a)) ∧
    reconnectBase part001RetryDelay part001MaxDelay a ≤
      reconnectBase part001RetryDelay part001MaxDelay b ∧
    reconnectBase part001RetryDelay part001MaxDelay a ≤ part001MaxDelay ∧
    reconnectBase part002RetryDelay part002MaxDelay a ≤
      reconnectBase part002RetryDelay part002MaxDelay b ∧
    4 * q / 5 - 1 < (jitterMs q (1 / 5) r : ℚ) ∧
    (jitterMs q (1 / 5) r : ℚ) < 6 * q / 5 ∧
    reconnectAttemptAfter a true = 0 ∧
    reconnectBase part001RetryDelay part001MaxDelay 0 = part001RetryDelay := by
  have hmono : ∀ d c : Nat, reconnectBase d c a ≤ reconnectBase d c b := by
    intro d c
    exact min_le_min (le_refl c)
      (Nat.mul_le_mul_left d (Nat.pow_le_pow_right (by norm_num) hab))
  have hup : (jitterMs q (1 / 5) r : ℚ) ≤
      q - q * (1 / 5) + r * (2 * (q * (1 / 5))) := Int.floor_le _
  have hlow : q - q * (1 / 5) + r * (2 * (q * (1 / 5))) - 1 <
      (jitterMs q (1 / 5) r : ℚ) := Int.sub_one_lt_floor _
  have hrpos : 0 ≤ r * (2 * (q * (1 / 5))) := by positivity
  have hrlt : r * (2 * (q * (1 / 5))) < 2 * (q * (1 / 5)) :=
    mul_lt_of_lt_one_left (by positivity) h1
  refine ⟨?_, hmono _ _, min_le_left _ _, hmono _ _, ?_, ?_, rfl, by decide⟩
  · rw [scheduleReconnect, if_neg (Nat.not_le.mpr ha)]
    rfl
  · linarith
  · linarith

/-- Witness for C6 at attempt 1 versus 3, jitter draw 1/2, base 30000. -/
theorem reconnect_backoff_spec_witness :
    scheduleReconnect 1 =
      some (min part001MaxDelay (part001RetryDelay * 2 ^ 1)) ∧
    reconnectBase part001RetryDelay part001MaxDelay 1 ≤
      reconnectBase part001RetryDelay part001MaxDelay 3 ∧
    reconnectBase part001RetryDelay part001MaxDelay 1 ≤ part001MaxDelay ∧
    reconnectBase part002RetryDelay part002MaxDelay 1 ≤
      reconnectBase part002RetryDelay part002MaxDelay 3 ∧
    4 * (30000 : ℚ) / 5 - 1 < (jitterMs 30000 (1 / 5) (1 / 2) : ℚ) ∧
    (jitterMs 30000 (1 / 5) (1 / 2) : ℚ) < 6 * (30000 : ℚ) / 5 ∧
    reconnectAttemptAfter 1 true = 0 ∧
    reconnectBase part001RetryDelay part001MaxDelay 0 = part001RetryDelay :=
  reconnect_backoff_spec 1 3 (by norm_num)
    (by norm_num [maxReconnectAttempts]) (1 / 2) 30000 (by norm_num)
    (by norm_num) (by norm_num)

/-! ### Theorems for C7 (login fallback ordering and cooldown) -/

theorem isNewMessageById_falsy (st : DedupState) (mid : Option String)
    (h : truthy mid = false) : isNewMessageById st mid = (true, st) := by
  cases mid with
  | none => rfl
  | some s =>
    have hs : s = "" := by
      by_contra hne
      simp [truthy, hne] at h
    simp [isNewMessageById, hs]

/-- Payload with a sender id but no message id. -/
def malformedPayload : RawMessagePayload :=
  { item_id := none, user_id := some "5", text := some "x",
    thread_id := some "T", item_type := some "text" }

/-- Event carrying `malformedPayload`. -/
def malformedEvent : RawEvent :=
  { message := some malformedPayload, thread := none }

/-- C9 counterexample: the ingestion pipeline at src/core/bot.js lines
225-287 dispatches an event whose payload lacks a message id
(`isNewMessageById` reports a missing id as new and `handleMessage` has no
malformed-payload guard), instead of dropping it as claimed. -/
theorem malformed_event_dispatched :
    (onMessageEvent ⟨[]⟩ malformedEvent).1 ≠ none := by decide

/-- C9 amended: the first-variant pipeline drops an event only when it
lacks the `message` payload object or the dedup window rejects it: a
payload lacking a truthy message id is always treated as new and
dispatched, and one lacking a sender id is dispatched with fallback fields;
neither is propagated as an error.  The second bot.js variant's
`handleMessage` instead drops (and logs) payloads lacking either id. -/
theorem malformed_payload_handling (st : DedupState) (ev : RawEvent)
    (m : RawMessagePayload) (hm : ev.message = some m)
    (hmal : truthy m.item_id = false ∨
      (truthy m.user_id = false ∧ (isNewMessageById st m.item_id).1 = true)) :
    (onMessageEvent st ev).1 = some (handleMessage m ev) ∧
    handleMessageV2 m ev = none := by
  constructor
  · rcases hmal with hid | ⟨_, hfresh⟩
    · simp [onMessageEvent, hm, isNewMessageById_falsy st m.item_id hid]
    · simp [onMessageEvent, hm, hfresh]
  · rcases hmal with hid | ⟨huser, _⟩
    · simp [handleMessageV2, hid]
    · simp [handleMessageV2, huser]

/-- Witness for C9 amended: the id-less payload is dispatched by the first
variant and dropped by the second. -/
theorem malformed_payload_handling_witness :
    (onMessageEvent ⟨[]⟩ malformedEvent).1 =
      some (handleMessage malformedPayload malformedEvent) ∧
    handleMessageV2 malformedPayload malformedEvent = none :=
  malformed_payload_handling ⟨[]⟩ malformedEvent malformedPayload rfl
    (Or.inl rfl)

end XerInsta
